import Mathlib

/-!
Shallow embedding of `src/packages/db-vercel-postgres/src/connect.ts`
(the connection supervisor of the `@payloadcms/db-vercel-postgres`
adapter), together with theorems settling the specification claims.

The source is a single module exporting `connect` and an internal
`connectWithReconnect`.  Asynchronous effects (client connect attempts,
timers, logger calls, collaborator calls, process exit) are embedded as
an explicit event trace; the JavaScript event loop is single-threaded,
so a sequential trace is a faithful picture of one run.  The two
unbounded recursions (the 1-second reconnect loop and the
create-database retry of `connect`) take a fuel parameter.
-/

namespace VercelPG

/-- A JavaScript error value as far as `connect.ts` inspects it:
only its `message` property is read (via optional chaining, so it may
be absent). -/
structure JSError where
  message : Option String
deriving DecidableEq, Repr

/-- Decidable equality for `Except`, so concrete runs can be settled
by `decide`. -/
instance {ε α : Type} [DecidableEq ε] [DecidableEq α] :
    DecidableEq (Except ε α) := fun x y =>
  match x, y with
  | .ok a, .ok b =>
    if h : a = b then .isTrue (by simp [h]) else .isFalse (by simp [h])
  | .error a, .error b =>
    if h : a = b then .isTrue (by simp [h]) else .isFalse (by simp [h])
  | .ok _, .error _ => .isFalse (by simp)
  | .error _, .ok _ => .isFalse (by simp)

/-- Events observable in one run of the supervisor, in program order. -/
inductive Event where
  /-- `client.connect()` is awaited; `attempt` is a global attempt index. -/
  | clientConnectCall (attempt : Nat)
  /-- `result.on('error', …)` attaches the persistent error listener. -/
  | attachErrorListener
  /-- `setTimeout(…, ms)` fires after `ms` milliseconds. -/
  | delayMs (ms : Nat)
  /-- `payload.logger.info(msg)`. -/
  | logInfo (msg : String)
  /-- `payload.logger.error({ err, msg })`. -/
  | logErrorWith (err : JSError) (msg : String)
  /-- `this.dropDatabase({ adapter: this })`. -/
  | dropDatabaseCall
  /-- `this.createDatabase()`. -/
  | createDatabaseCall
  /-- `this.createExtensions()`. -/
  | createExtensionsCall
  /-- `pushDevSchema(this)`. -/
  | pushDevSchemaCall
  /-- `this.resolveInitializing()`. -/
  | resolveInitializingCall
  /-- `this.rejectInitializing()`. -/
  | rejectInitializingCall
  /-- `this.migrate({ migrations })`; migration lists are abstracted to ids. -/
  | migrateCall (migrations : Nat)
  /-- `void connectWithReconnect({ …, reconnect })`: a fire-and-forget
  task spawned from the error listener, not awaited there. -/
  | spawnReconnect (reconnect : Bool)
deriving DecidableEq, Repr

/-! ### String primitives used by the source

`String.prototype.includes`, the regex `/database .* does not exist/i`
and `charAt(0).toUpperCase() + slice(1)` are embedded as executable
character-list functions. -/

/-- `needle` is a prefix of `hay` (character lists). -/
def isPrefixChars : List Char → List Char → Bool
  | [], _ => true
  | _ :: _, [] => false
  | a :: as, b :: bs => a == b && isPrefixChars as bs

/-- `hay` contains `needle` as a contiguous substring. -/
def containsSubChars (needle : List Char) : List Char → Bool
  | [] => isPrefixChars needle []
  | c :: t => isPrefixChars needle (c :: t) || containsSubChars needle t

/-- JavaScript `s.includes(pat)` (case-sensitive substring test). -/
def strIncludes (s pat : String) : Bool :=
  containsSubChars pat.data s.data

/-- First literal chunk of the regex `/database .* does not exist/i`. -/
def litDatabase : List Char := "database ".data

/-- Second literal chunk of the regex `/database .* does not exist/i`. -/
def litDoesNotExist : List Char := " does not exist".data

/-- After the `database ` literal: `.*` may consume any characters except
line terminators, then ` does not exist` must follow. -/
def dbTailMatch : List Char → Bool
  | [] => isPrefixChars litDoesNotExist []
  | c :: t =>
    isPrefixChars litDoesNotExist (c :: t) ||
      (!(c == '\n' || c == '\r') && dbTailMatch t)

/-- Unanchored scan for `database .* does not exist` over a
lower-cased character list. -/
def dbScan : List Char → Bool
  | [] => false
  | c :: t =>
    (isPrefixChars litDatabase (c :: t) &&
        dbTailMatch (List.drop litDatabase.length (c :: t))) ||
      dbScan t

/-- `err.message?.match(/database .* does not exist/i)` viewed as a
Boolean: the `/i` flag is embedded by lower-casing the subject. -/
def matchesDatabaseDoesNotExist (s : String) : Bool :=
  dbScan (s.data.map Char.toLower)

/-- `msg.charAt(0).toUpperCase() + msg.slice(1)` from the
create-database log line. -/
def capitalizeFirst (s : String) : String :=
  match s.data with
  | [] => ""
  | c :: t => String.mk (Char.toUpper c :: t)

/-- JavaScript template interpolation of a possibly-undefined string. -/
def jsStringOf : Option String → String
  | some s => s
  | none => "undefined"

/-! ### The error listener (connect.ts lines 38–51)

The listener receives an arbitrary JavaScript value.  The embedding
distinguishes the three behaviours property access can have: throwing
(`null`/`undefined` receivers), yielding `undefined` (primitives), and
yielding the stored fields (objects). -/

/-- A JavaScript value delivered to the `error` listener. -/
inductive JSErrVal where
  /-- `null` or `undefined`: reading `.code` throws a `TypeError`. -/
  | nullish
  /-- a non-nullish primitive: every property reads as `undefined`. -/
  | prim
  /-- an object with optional `code` and `message` string properties. -/
  | obj (code : Option String) (message : Option String)
deriving DecidableEq, Repr

/-- Reading `err.code`; `Except.error` models a thrown `TypeError`. -/
def getCode : JSErrVal → Except Unit (Option String)
  | .nullish => .error ()
  | .prim => .ok none
  | .obj c _ => .ok c

/-- Reading `err.message`; `Except.error` models a thrown `TypeError`. -/
def getMessage : JSErrVal → Except Unit (Option String)
  | .nullish => .error ()
  | .prim => .ok none
  | .obj _ m => .ok m

/-- The trigger test inside the listener's `try` block:
`err.code === 'ECONNRESET' || err.message?.includes('Connection
terminated unexpectedly') || err.message?.includes('connection
terminated')`, with left-to-right short-circuit evaluation; a thrown
property access aborts the whole test. -/
def listenerTrigger (err : JSErrVal) : Except Unit Bool :=
  match getCode err with
  | .error e => .error e
  | .ok code =>
    if code = some "ECONNRESET" then .ok true
    else
      match getMessage err with
      | .error e => .error e
      | .ok none => .ok false
      | .ok (some m) =>
        .ok (strIncludes m "Connection terminated unexpectedly" ||
          strIncludes m "connection terminated")

/-- The whole listener body (connect.ts lines 38–51): the `try` runs the
trigger test and, on a trigger, spawns `connectWithReconnect` with
`reconnect = true` fire-and-forget; the `catch` swallows anything the
body threw.  The result is the trace of events the listener emits; it
is `Except`-valued so that "the listener never throws" is itself a
stated fact rather than an artifact of totality. -/
def errorListenerRun (err : JSErrVal) : Except Unit (List Event) :=
  match listenerTrigger err with
  | .ok true => .ok [.spawnReconnect true]
  | .ok false => .ok []
  | .error _ => .ok []

/-! ### connectWithReconnect (connect.ts lines 11–52)

`outcomes` is the environment's oracle: the result of the `attempt`-th
`client.connect()` in this run (`.ok` resolves to a truthy pool client,
`.error e` rejects with `e`).  `fuel` bounds the depth of the
otherwise-indefinite reconnect loop; at fuel 0 a scheduled retry is
still pending and has not yet run (retries are fire-and-forget, so the
value returned to the caller is unaffected). -/
def connectWithReconnect (outcomes : Nat → Except JSError Unit)
    (attempt : Nat) (reconnect : Bool) : Nat → List Event × Except JSError Unit
  | 0 => ([], .ok ())
  | fuel + 1 =>
    if reconnect then
      match outcomes attempt with
      | .error _ =>
        let rest := connectWithReconnect outcomes (attempt + 1) true fuel
        ([.clientConnectCall attempt, .delayMs 1000,
            .logInfo "Reconnecting to postgres"] ++ rest.1, .ok ())
      | .ok _ => ([.clientConnectCall attempt, .attachErrorListener], .ok ())
    else
      match outcomes attempt with
      | .error e => ([.clientConnectCall attempt], .error e)
      | .ok _ => ([.clientConnectCall attempt, .attachErrorListener], .ok ())

/-- The trace laid down by `n` consecutive failed reconnect attempts
starting at attempt index `a`: each failure is one connect call, one
1000 ms timer, and one informational log, then the loop recurses. -/
def retryChain (a : Nat) : Nat → List Event
  | 0 => []
  | n + 1 =>
    [.clientConnectCall a, .delayMs 1000, .logInfo "Reconnecting to postgres"] ++
      retryChain (a + 1) n

/-! ### Backend selection (connect.ts lines 73–88) -/

/-- The slice of `pg.PoolConfig` the source reads, plus one abstract
field standing for all the configuration it merely forwards. -/
structure PoolOptions where
  connectionString : Option String
  rest : Nat := 0
deriving DecidableEq, Repr

/-- The client value `connect` constructs: `new pg.Pool(…)`,
`new VercelPool(poolOptions)`, or the default `sql` client that reads
its connection string from the process environment. -/
inductive Client where
  | pgPool (opts : PoolOptions)
  | vercelPool (opts : PoolOptions)
  | sqlDefault
deriving DecidableEq, Repr

/-- ASCII letter test for URL schemes. -/
def isAlphaChar (c : Char) : Bool :=
  ('a' ≤ c && c ≤ 'z') || ('A' ≤ c && c ≤ 'Z')

/-- Characters allowed after the first one in a URL scheme. -/
def isSchemeChar (c : Char) : Bool :=
  isAlphaChar c || ('0' ≤ c && c ≤ '9') || c == '+' || c == '-' || c == '.'

/-- Scheme recognition: returns the remainder after `scheme:`, or
`none` when the string has no valid scheme (an invalid URL). -/
def splitSchemeAux : List Char → Option (List Char)
  | [] => none
  | c :: rest =>
    if c == ':' then some rest
    else if isSchemeChar c then splitSchemeAux rest
    else none

/-- Entry point of scheme recognition: the first character must be an
ASCII letter. -/
def splitScheme : List Char → Option (List Char)
  | [] => none
  | c :: rest => if isAlphaChar c then splitSchemeAux rest else none

/-- The authority component after the last `@` (userinfo stripped). -/
def afterLastAt (cs : List Char) : List Char :=
  let rev := cs.reverse
  let hostRev := rev.takeWhile (· ≠ '@')
  hostRev.reverse

/-- Models the WHATWG `new URL(s).hostname` used at connect.ts line 79
(the `URL` class is a platform builtin, not part of this repository).
Simplified to the inputs that reach it — absolute URLs: a scheme is
required (`[A-Za-z][A-Za-z0-9+.-]*:`); with a `//` the authority runs
to the next `/`, `?` or `#`, the host is what follows the last `@`,
a `:port` is stripped (brackets delimit an IPv6 host), and the host is
lower-cased; without `//` the hostname is empty.  `Except.error` models
the `TypeError: Invalid URL` the constructor throws. -/
def parseURLHostname (s : String) : Except Unit String :=
  match splitScheme s.data with
  | none => .error ()
  | some rest =>
    match rest with
    | '/' :: '/' :: r2 =>
      let authority := r2.takeWhile (fun c => !(c == '/' || c == '?' || c == '#'))
      let hostPort := afterLastAt authority
      let host :=
        match hostPort with
        | '[' :: t => '[' :: (t.takeWhile (· ≠ ']')) ++ [']']
        | _ => hostPort.takeWhile (· ≠ ':')
      .ok (String.mk (host.map Char.toLower))
    | _ => .ok ""

/-- `this.poolOptions?.connectionString ?? process.env.POSTGRES_URL`
(connect.ts line 73): `??` falls through only on `null`/`undefined`,
so an empty connection string in the pool options is kept. -/
def csResolve (poolOptions : Option PoolOptions) (envUrl : Option String) :
    Option String :=
  match poolOptions with
  | some p =>
    match p.connectionString with
    | some s => some s
    | none => envUrl
  | none => envUrl

/-- The `else` arm of the selection (connect.ts line 87):
`this.poolOptions ? new VercelPool(this.poolOptions) : sql`. -/
def hostedVariant : Option PoolOptions → Client
  | some p => .vercelPool p
  | none => .sqlDefault

/-- Backend selection (connect.ts lines 76–88).  The guard is
`!forceUseVercelPostgres && connectionString && ['127.0.0.1',
'localhost'].includes(new URL(connectionString).hostname)`; an empty
connection string is falsy, and the URL constructor only runs once the
first two conjuncts hold — when it throws, the error propagates to
`connect`'s catch. -/
def selectClient (poolOptions : Option PoolOptions) (force : Bool)
    (cs : Option String) : Except JSError Client :=
  match cs with
  | some s =>
    if force = false ∧ s ≠ "" then
      match parseURLHostname s with
      | .error _ => .error { message := some "Invalid URL" }
      | .ok h =>
        if h = "127.0.0.1" ∨ h = "localhost" then
          .ok (.pgPool (poolOptions.getD { connectionString := some s }))
        else .ok (hostedVariant poolOptions)
    else .ok (hostedVariant poolOptions)
  | none => .ok (hostedVariant poolOptions)

/-! ### The adapter handle and the runtime environment -/

/-- The merged schema object assigned at connect.ts lines 62–67:
`{ pgSchema: this.pgSchema, ...this.tables, ...this.relations,
...this.enums }`.  The spread sources are opaque to the supervisor and
are abstracted to ids. -/
structure SchemaVal where
  pgSchema : Nat
  tables : Nat
  relations : Nat
  enums : Nat
deriving DecidableEq, Repr

/-- The query layer built at connect.ts lines 95–99:
`drizzle({ client, logger, schema })`. -/
structure DrizzleVal where
  client : Client
  logger : Bool
  schema : SchemaVal
deriving DecidableEq, Repr

/-- The `VercelPostgresAdapter` fields `connect` reads or writes.
Collaborator functions live in the `World` oracle; the two lifecycle
callbacks are recorded by presence (the source checks
`typeof … === 'function'`), and `push` is tri-state (`some false` is
the only value that disables dev push). -/
structure Adapter where
  poolOptions : Option PoolOptions
  forceUseVercelPostgres : Bool
  disableCreateDatabase : Bool
  push : Option Bool
  logger : Bool
  schemaName : Option String
  resolveInitializing : Bool
  rejectInitializing : Bool
  prodMigrations : Option Nat
  pgSchema : Nat
  tables : Nat
  relations : Nat
  enums : Nat
  schema : Option SchemaVal
  drizzle : Option DrizzleVal
deriving DecidableEq, Repr

/-- The slice of `process.env` the module reads. -/
structure Env where
  postgresUrl : Option String
  payloadDropDatabase : Option String
  nodeEnv : Option String
  payloadMigrating : Option String
deriving DecidableEq, Repr

/-- Oracle for everything outside the supervisor: environment
variables, the outcome of each `client.connect()` attempt (indexed
globally), the truthiness of each `createDatabase()` call (indexed
globally), and the outcomes of the awaited collaborators. -/
structure World where
  env : Env
  connectOutcomes : Nat → Except JSError Unit
  createDbOutcomes : Nat → Bool
  dropOutcome : Except JSError Unit
  extensionsOutcome : Except JSError Unit
  pushOutcome : Except JSError Unit
  migrateOutcome : Except JSError Unit

/-- How one run of `connect` ends. -/
inductive Outcome where
  /-- The returned promise resolves. -/
  | completed
  /-- `process.exit(code)` ran. -/
  | exited (code : Nat)
  /-- The returned promise rejects with `e`. -/
  | threw (e : JSError)
  /-- Fuel ran out before the run ended (model artifact). -/
  | outOfFuel
deriving DecidableEq, Repr

/-- Trace, final adapter state, and run outcome. -/
abbrev RunResult := List Event × Adapter × Outcome

/-! ### The top-level connect operation (connect.ts lines 54–151) -/

/-- The schema object merged at connect.ts lines 62–67. -/
def mkSchemaVal (a : Adapter) : SchemaVal :=
  { pgSchema := a.pgSchema, tables := a.tables
    relations := a.relations, enums := a.enums }

/-- `this.schemaName || 'public'` (falsy fallback, so an empty name
also maps to `public`). -/
def schemaNameOrPublic : Option String → String
  | some s => if s = "" then "public" else s
  | none => "public"

/-- The informational line logged before `dropDatabase`. -/
def dropInfoMsg (schemaName : Option String) : String :=
  "---- DROPPING TABLES SCHEMA(" ++ schemaNameOrPublic schemaName ++ ") ----"

/-- `typeof this.rejectInitializing === 'function'` guard at
connect.ts lines 127–129. -/
def rejectTrace (a : Adapter) : List Event :=
  if a.rejectInitializing then [.rejectInitializingCall] else []

/-- `typeof this.resolveInitializing === 'function'` guard at
connect.ts lines 144–146. -/
def resolveTrace (a : Adapter) : List Event :=
  if a.resolveInitializing then [.resolveInitializingCall] else []

/-- The dev-push gate (connect.ts lines 136–140):
`process.env.NODE_ENV !== 'production' && process.env.PAYLOAD_MIGRATING
!== 'true' && this.push !== false`. -/
def pushCondition (env : Env) (push : Option Bool) : Bool :=
  !(env.nodeEnv == some "production") &&
    !(env.payloadMigrating == some "true") && !(push == some false)

/-- Production migration (connect.ts lines 148–150): run only when
`NODE_ENV === 'production'` and `this.prodMigrations` is set. -/
def prodMigrationPart (w : World) (a : Adapter) : List Event × Outcome :=
  if w.env.nodeEnv == some "production" then
    match a.prodMigrations with
    | some migs =>
      match w.migrateOutcome with
      | .error e => ([.migrateCall migs], .threw e)
      | .ok _ => ([.migrateCall migs], .completed)
    | none => ([], .completed)
  else ([], .completed)

/-- Everything after the `try`/`catch` (connect.ts lines 133–150):
`await this.createExtensions()`, the gated `pushDevSchema`, the
resolve-initializing signal, the gated production migration.  A
collaborator failure rejects the promise `connect` returned and skips
the remaining steps. -/
def postConnect (w : World) (a : Adapter) : RunResult :=
  match w.extensionsOutcome with
  | .error e => ([.createExtensionsCall], a, .threw e)
  | .ok _ =>
    if pushCondition w.env a.push then
      match w.pushOutcome with
      | .error e => ([.createExtensionsCall, .pushDevSchemaCall], a, .threw e)
      | .ok _ =>
        let mp := prodMigrationPart w a
        ([.createExtensionsCall, .pushDevSchemaCall] ++ resolveTrace a ++ mp.1,
          a, mp.2)
    else
      let mp := prodMigrationPart w a
      ([.createExtensionsCall] ++ resolveTrace a ++ mp.1, a, mp.2)

/-- The `catch` block of `connect` (connect.ts lines 108–131),
parameterised by the recursive re-invocation `recurse` (the
`await this.connect(options); return` at lines 117–118).  `cdIdx`
indexes `createDatabase` outcomes.  When the message matches the
missing-database pattern and auto-creation is enabled, the capitalized
message is logged and `createDatabase` runs: a truthy result hands the
run to the recursive call, a falsy one falls through to the terminal
path (optional `rejectInitializing`, then `process.exit(1)`); every
other error logs the formatted fatal message first. -/
def catchCore (w : World) (a : Adapter) (cdIdx : Nat) (e : JSError)
    (recurse : Unit → RunResult) : RunResult :=
  match e.message with
  | some m =>
    if matchesDatabaseDoesNotExist m && !a.disableCreateDatabase then
      let t0 : List Event :=
        [.logInfo (capitalizeFirst m ++ ", creating..."), .createDatabaseCall]
      if w.createDbOutcomes cdIdx then
        let r := recurse ()
        (t0 ++ r.1, r.2.1, r.2.2)
      else
        (t0 ++ rejectTrace a, a, .exited 1)
    else
      ([.logErrorWith e ("Error: cannot connect to Postgres. Details: " ++ m)] ++
          rejectTrace a, a, .exited 1)
  | none =>
    ([.logErrorWith e
        ("Error: cannot connect to Postgres. Details: " ++ jsStringOf none)] ++
        rejectTrace a, a, .exited 1)

/-- The exported `connect` (connect.ts lines 54–151).  `attempt` and
`cdIdx` index the world's `client.connect()` and `createDatabase()`
outcome streams; `fuel` bounds the create-database retry recursion.
The schema merge happens before the `try`, so it survives into the
catch; `this.drizzle` is assigned right after the initial connect
succeeds, before the drop-database section. -/
def connect (w : World) (a : Adapter) (hotReload : Bool)
    (attempt cdIdx : Nat) : Nat → RunResult
  | 0 => ([], a, .outOfFuel)
  | fuel + 1 =>
    let sv := mkSchemaVal a
    let a1 := { a with schema := some sv }
    let cs := csResolve a1.poolOptions w.env.postgresUrl
    match selectClient a1.poolOptions a1.forceUseVercelPostgres cs with
    | .error e =>
      catchCore w a1 cdIdx e (fun _ => connect w a1 hotReload attempt (cdIdx + 1) fuel)
    | .ok client =>
      let c1 := connectWithReconnect w.connectOutcomes attempt false (fuel + 1)
      match c1.2 with
      | .error e =>
        let r := catchCore w a1 cdIdx e
          (fun _ => connect w a1 hotReload (attempt + 1) (cdIdx + 1) fuel)
        (c1.1 ++ r.1, r.2.1, r.2.2)
      | .ok _ =>
        let a2 := { a1 with
          drizzle := some { client := client, logger := a1.logger, schema := sv } }
        if hotReload = false ∧ w.env.payloadDropDatabase = some "true" then
          let t2 := c1.1 ++ [.logInfo (dropInfoMsg a2.schemaName), .dropDatabaseCall]
          match w.dropOutcome with
          | .error e =>
            let r := catchCore w a2 cdIdx e
              (fun _ => connect w a2 hotReload (attempt + 1) (cdIdx + 1) fuel)
            (t2 ++ r.1, r.2.1, r.2.2)
          | .ok _ =>
            let p := postConnect w a2
            (t2 ++ [.logInfo "---- DROPPED TABLES ----"] ++ p.1, p.2.1, p.2.2)
        else
          let p := postConnect w a2
          (c1.1 ++ p.1, p.2.1, p.2.2)

/-- The `catch` block with the actual recursive `this.connect(options)`
plugged in: what `connect` runs when the `try` block throws `e` with
the adapter mutated to `a`, the next connect attempt at index
`attempt`, and `cdIdx` `createDatabase` calls already consumed. -/
def catchHandler (w : World) (a : Adapter) (hotReload : Bool)
    (attempt cdIdx : Nat) (e : JSError) (fuel : Nat) : RunResult :=
  catchCore w a cdIdx e (fun _ => connect w a hotReload attempt (cdIdx + 1) fuel)

/-- The adapter fields the supervisor never writes — everything except
the `schema` and `drizzle` slots. -/
def frameFields (a : Adapter) :=
  (a.poolOptions, a.forceUseVercelPostgres, a.disableCreateDatabase, a.push,
    a.logger, a.schemaName, a.resolveInitializing, a.rejectInitializing,
    a.prodMigrations, a.pgSchema, a.tables, a.relations, a.enums)

/-! ## Theorems settling the claims -/

/-- C1: for every error delivered to the attached listener whose `code`
is `"ECONNRESET"`, or whose message contains the substring
`"Connection terminated unexpectedly"` or `"connection terminated"`
(case-sensitive), the listener spawns `connectWithReconnect` with
`reconnect = true` exactly once, fire-and-forget. -/
theorem c1_trigger_spawns_reconnect_once (code message : Option String)
    (h : code = some "ECONNRESET" ∨
      ∃ m, message = some m ∧
        (strIncludes m "Connection terminated unexpectedly" = true ∨
          strIncludes m "connection terminated" = true)) :
    errorListenerRun (.obj code message) = .ok [.spawnReconnect true] := by
  rcases h with hc | ⟨m, hm, hinc⟩
  · subst hc
    simp [errorListenerRun, listenerTrigger, getCode, getMessage]
  · subst hm
    by_cases hcode : code = some "ECONNRESET"
    · subst hcode
      simp [errorListenerRun, listenerTrigger, getCode, getMessage]
    · rcases hinc with h1 | h1 <;>
        simp [errorListenerRun, listenerTrigger, getCode, getMessage, hcode, h1]

/-- Witness for C1 at a concrete `ECONNRESET` error. -/
theorem c1_witness :
    errorListenerRun (.obj (some "ECONNRESET") none) = .ok [.spawnReconnect true] :=
  c1_trigger_spawns_reconnect_once (some "ECONNRESET") none (Or.inl rfl)

/-- C8: the listener never lets an exception escape (it resolves to a
trace for every JavaScript value, including `null`/`undefined` and
non-object primitives), and on any object error matching none of the
trigger conditions it does nothing: no reconnect is spawned and
nothing is logged (the returned trace is empty). -/
theorem c8_nonmatching_silent_listener_total :
    (∀ err : JSErrVal, ∃ t, errorListenerRun err = .ok t) ∧
    (∀ code message : Option String,
      code ≠ some "ECONNRESET" →
      (∀ m, message = some m →
        strIncludes m "Connection terminated unexpectedly" = false ∧
        strIncludes m "connection terminated" = false) →
      errorListenerRun (.obj code message) = .ok []) := by
  constructor
  · intro err
    unfold errorListenerRun
    rcases h : listenerTrigger err with e | b
    · exact ⟨[], rfl⟩
    · cases b
      · exact ⟨[], rfl⟩
      · exact ⟨[.spawnReconnect true], rfl⟩
  · intro code message hcode hmsg
    cases message with
    | none => simp [errorListenerRun, listenerTrigger, getCode, getMessage, hcode]
    | some m =>
      rcases hmsg m rfl with ⟨h1, h2⟩
      simp [errorListenerRun, listenerTrigger, getCode, getMessage, hcode, h1, h2]

/-- Witness for C8 at a concrete non-matching object error. -/
theorem c8_witness :
    errorListenerRun (.obj (some "EOTHER") (some "boom")) = .ok [] :=
  c8_nonmatching_silent_listener_total.2 (some "EOTHER") (some "boom")
    (by decide)
    (fun m hm => by
      injection hm with hm
      subst hm
      exact ⟨by decide, by decide⟩)

/-- C2: on the reconnect path, `connectWithReconnect` never rejects to
its caller; a failed attempt schedules exactly one retry that, after a
1000 ms delay, logs `Reconnecting to postgres` and recurses with
`reconnect = true`; and `n` chained failures followed by a success
produce exactly the fixed-spacing retry chain `retryChain` — one
1-second delay per failure, no cap and no back-off growth. -/
theorem c2_reconnect_retry_loop :
    (∀ (outcomes : Nat → Except JSError Unit) (a fuel : Nat),
      (connectWithReconnect outcomes a true fuel).2 = .ok ()) ∧
    (∀ (outcomes : Nat → Except JSError Unit) (a fuel : Nat) (e : JSError),
      outcomes a = .error e →
      connectWithReconnect outcomes a true (fuel + 1) =
        ([.clientConnectCall a, .delayMs 1000,
            .logInfo "Reconnecting to postgres"] ++
          (connectWithReconnect outcomes (a + 1) true fuel).1, .ok ())) ∧
    (∀ (outcomes : Nat → Except JSError Unit) (a n : Nat),
      (∀ i, i < n → ∃ e, outcomes (a + i) = .error e) →
      outcomes (a + n) = .ok () →
      connectWithReconnect outcomes a true (n + 1) =
        (retryChain a n ++ [.clientConnectCall (a + n), .attachErrorListener],
          .ok ())) := by
  refine ⟨?_, ?_, ?_⟩
  · intro outcomes a fuel
    cases fuel with
    | zero => rfl
    | succ fuel =>
      unfold connectWithReconnect
      rcases outcomes a with e | u <;> simp
  · intro outcomes a fuel e h
    conv_lhs => rw [connectWithReconnect]
    simp [h]
  · intro outcomes a n
    induction n generalizing a with
    | zero =>
      intro _ hok
      unfold connectWithReconnect
      simp at hok
      simp [hok, retryChain]
    | succ n ih =>
      intro hfail hok
      obtain ⟨e, he⟩ := hfail 0 (Nat.succ_pos n)
      simp at he
      have hrec := ih (a + 1)
        (fun i hi => by
          have := hfail (i + 1) (Nat.succ_lt_succ hi)
          simpa [Nat.add_assoc, Nat.add_comm 1 i] using this)
        (by simpa [Nat.add_assoc, Nat.add_comm 1 n] using hok)
      conv_lhs => rw [connectWithReconnect]
      simp [he, hrec, retryChain, Nat.add_assoc, Nat.add_comm 1 n]

/-- Witness for C2: three chained failures then a success, at fixed
1-second spacing. -/
theorem c2_witness :
    connectWithReconnect
        (fun i => if i < 3 then .error { message := some "boom" } else .ok ())
        0 true 4 =
      (retryChain 0 3 ++ [.clientConnectCall 3, .attachErrorListener], .ok ()) :=
  c2_reconnect_retry_loop.2.2
    (fun i => if i < 3 then .error { message := some "boom" } else .ok ()) 0 3
    (fun i hi => ⟨{ message := some "boom" }, by simp [hi]⟩)
    rfl

/-- C5 counterexample: with force-hosted false and the available
connection string `"not a url"` (whose hostname is not a loopback, so
the claim places it in the "every other case" covered by the hosted
client), backend selection does not construct the hosted client — the
URL constructor throws and the error propagates. -/
theorem c5_counterexample :
    selectClient none false (some "not a url") =
        .error { message := some "Invalid URL" } ∧
      selectClient none false (some "not a url") ≠ .ok (hostedVariant none) := by
  refine ⟨by decide, ?_⟩
  intro h
  rw [show selectClient none false (some "not a url") =
    .error { message := some "Invalid URL" } from by decide] at h
  exact Except.noConfusion h

/-- C5 amended: backend selection is a pure function of the
configuration.  When force-hosted is false and a nonempty connection
string is available that parses as a URL with hostname `127.0.0.1` or
`localhost`, a local `pg.Pool` client is built from the pool options
when supplied and otherwise from the connection string; when the
hostname parses to anything else, or force-hosted is true, or no
nonempty connection string is available, a hosted client is built
(`VercelPool` over the pool options when supplied, else the default
environment-driven `sql` client); and when force-hosted is false and
the nonempty connection string does not parse as a URL, selection
throws instead of constructing any client. -/
theorem c5_amended_backend_selection (poolOptions : Option PoolOptions)
    (force : Bool) (cs : Option String) :
    (∀ s h, force = false → cs = some s → s ≠ "" →
      parseURLHostname s = .ok h → (h = "127.0.0.1" ∨ h = "localhost") →
      selectClient poolOptions force cs =
        .ok (.pgPool (poolOptions.getD { connectionString := some s }))) ∧
    (∀ s h, force = false → cs = some s → s ≠ "" →
      parseURLHostname s = .ok h → ¬(h = "127.0.0.1" ∨ h = "localhost") →
      selectClient poolOptions force cs = .ok (hostedVariant poolOptions)) ∧
    (force = true ∨ cs = none ∨ cs = some "" →
      selectClient poolOptions force cs = .ok (hostedVariant poolOptions)) ∧
    (∀ s, force = false → cs = some s → s ≠ "" →
      parseURLHostname s = .error () →
      selectClient poolOptions force cs =
        .error { message := some "Invalid URL" }) := by
  refine ⟨?_, ?_, ?_, ?_⟩
  · intro s h hf hcs hne hp hloop
    subst hf hcs
    simp [selectClient, hne, hp, hloop]
  · intro s h hf hcs hne hp hloop
    subst hf hcs
    simp [selectClient, hne, hp, hloop]
  · rintro (hf | hcs | hcs)
    · subst hf
      cases cs <;> simp [selectClient]
    · subst hcs
      simp [selectClient]
    · subst hcs
      simp [selectClient]
  · intro s hf hcs hne hp
    subst hf hcs
    simp [selectClient, hne, hp]

/-- Witness for the amended C5: a loopback connection string with no
pool options yields the local client built from the string. -/
theorem c5_witness :
    selectClient none false (some "postgres://localhost:5432/db") =
      .ok (.pgPool { connectionString := some "postgres://localhost:5432/db" }) :=
  (c5_amended_backend_selection none false
      (some "postgres://localhost:5432/db")).1
    "postgres://localhost:5432/db" "localhost" rfl rfl (by decide) (by decide)
    (Or.inr rfl)

/-- C10: when force-hosted is false and a nonempty connection string
is available but does not parse as a URL, the selection throws, the
top-level connect catches it, the missing-database pattern does not
match `Invalid URL`, and the fatal path runs: the cannot-connect error
is logged, `rejectInitializing` is called when present, and the
process exits with status 1 — no fallback to the hosted client. -/
theorem c10_invalid_url_fatal (w : World) (a : Adapter) (hotReload : Bool)
    (attempt cdIdx fuel : Nat) (s : String)
    (hforce : a.forceUseVercelPostgres = false)
    (hcs : csResolve a.poolOptions w.env.postgresUrl = some s)
    (hne : s ≠ "")
    (hbad : parseURLHostname s = .error ()) :
    connect w a hotReload attempt cdIdx (fuel + 1) =
      ([.logErrorWith { message := some "Invalid URL" }
          "Error: cannot connect to Postgres. Details: Invalid URL"] ++
          rejectTrace a,
        { a with schema := some (mkSchemaVal a) }, .exited 1) := by
  have hm : matchesDatabaseDoesNotExist "Invalid URL" = false := by decide
  conv_lhs => rw [connect]
  simp [selectClient, hforce, hcs, hne, hbad, catchCore, hm, rejectTrace]

/-- Witness for C10 at the concrete connection string `not a url`. -/
theorem c10_witness :
    connect
        ⟨⟨some "not a url", none, none, none⟩, fun _ => .ok (), fun _ => true,
          .ok (), .ok (), .ok (), .ok ()⟩
        ⟨none, false, false, none, false, none, false, true, none,
          1, 2, 3, 4, none, none⟩
        false 0 0 1 =
      ([.logErrorWith ⟨some "Invalid URL"⟩
          "Error: cannot connect to Postgres. Details: Invalid URL",
          .rejectInitializingCall],
        ⟨none, false, false, none, false, none, false, true, none,
          1, 2, 3, 4, some ⟨1, 2, 3, 4⟩, none⟩, .exited 1) := by
  have h := c10_invalid_url_fatal
    ⟨⟨some "not a url", none, none, none⟩, fun _ => .ok (), fun _ => true,
      .ok (), .ok (), .ok (), .ok ()⟩
    ⟨none, false, false, none, false, none, false, true, none,
      1, 2, 3, 4, none, none⟩
    false 0 0 0 "not a url" rfl rfl (by decide) (by decide)
  simpa [mkSchemaVal, rejectTrace] using h

/-- C3: a failure in the top-level connect whose message matches
`/database .* does not exist/i`, with auto-creation enabled, logs the
capitalized message followed by `, creating...` and calls
`createDatabase` exactly once; a truthy result hands the run to a
recursive `connect` with the identical options (and the outer call
returns nothing further); a falsy result calls `rejectInitializing`
when present and exits with status 1.  The second conjunct shows
`connect` routes a failed initial connect attempt into exactly this
handler. -/
theorem c3_missing_database_creation_path :
    (∀ (w : World) (a : Adapter) (hotReload : Bool) (attempt cdIdx : Nat)
        (e : JSError) (fuel : Nat) (m : String),
      e.message = some m → matchesDatabaseDoesNotExist m = true →
      a.disableCreateDatabase = false →
      catchHandler w a hotReload attempt cdIdx e fuel =
        if w.createDbOutcomes cdIdx then
          ([.logInfo (capitalizeFirst m ++ ", creating..."), .createDatabaseCall] ++
              (connect w a hotReload attempt (cdIdx + 1) fuel).1,
            (connect w a hotReload attempt (cdIdx + 1) fuel).2.1,
            (connect w a hotReload attempt (cdIdx + 1) fuel).2.2)
        else
          ([.logInfo (capitalizeFirst m ++ ", creating..."), .createDatabaseCall] ++
              rejectTrace a, a, .exited 1)) ∧
    (∀ (w : World) (a : Adapter) (hotReload : Bool) (attempt cdIdx : Nat)
        (e : JSError) (fuel : Nat) (c : Client),
      selectClient a.poolOptions a.forceUseVercelPostgres
          (csResolve a.poolOptions w.env.postgresUrl) = .ok c →
      w.connectOutcomes attempt = .error e →
      connect w a hotReload attempt cdIdx (fuel + 1) =
        ([Event.clientConnectCall attempt] ++
            (catchHandler w { a with schema := some (mkSchemaVal a) } hotReload
              (attempt + 1) cdIdx e fuel).1,
          (catchHandler w { a with schema := some (mkSchemaVal a) } hotReload
            (attempt + 1) cdIdx e fuel).2.1,
          (catchHandler w { a with schema := some (mkSchemaVal a) } hotReload
            (attempt + 1) cdIdx e fuel).2.2)) := by
  constructor
  · intro w a hotReload attempt cdIdx e fuel m hm hmatch hdis
    unfold catchHandler catchCore
    cases hcd : w.createDbOutcomes cdIdx <;>
      simp [hm, hmatch, hdis, hcd]
  · intro w a hotReload attempt cdIdx e fuel c hsel hconn
    conv_lhs => rw [connect]
    simp [hsel, hconn, connectWithReconnect, catchHandler]

/-- Witness for C3: a concrete missing-database failure with a falsy
`createDatabase` result takes the terminal path after one creation
attempt. -/
theorem c3_witness :
    catchHandler
        ⟨⟨none, none, none, none⟩, fun _ => .ok (), fun _ => false,
          .ok (), .ok (), .ok (), .ok ()⟩
        ⟨none, false, false, none, false, none, false, true, none,
          1, 2, 3, 4, none, none⟩
        false 1 0 ⟨some "database payload does not exist"⟩ 0 =
      ([.logInfo "Database payload does not exist, creating...",
          .createDatabaseCall, .rejectInitializingCall],
        ⟨none, false, false, none, false, none, false, true, none,
          1, 2, 3, 4, none, none⟩, .exited 1) := by
  have h := c3_missing_database_creation_path.1
    ⟨⟨none, none, none, none⟩, fun _ => .ok (), fun _ => false,
      .ok (), .ok (), .ok (), .ok ()⟩
    ⟨none, false, false, none, false, none, false, true, none,
      1, 2, 3, 4, none, none⟩
    false 1 0 ⟨some "database payload does not exist"⟩ 0
    "database payload does not exist" rfl (by decide) rfl
  exact h.trans (by decide)

/-- C4: a failure in the top-level connect that does not take the
auto-creation path — the message matches no missing-database pattern,
or auto-creation is disabled (so even a missing-database message is
fatal) — logs the full error with the formatted cannot-connect
message, calls `rejectInitializing` when present, and exits with
status 1. -/
theorem c4_fatal_path (w : World) (a : Adapter) (hotReload : Bool)
    (attempt cdIdx : Nat) (e : JSError) (fuel : Nat)
    (h : (∀ m, e.message = some m → matchesDatabaseDoesNotExist m = false) ∨
      a.disableCreateDatabase = true) :
    catchHandler w a hotReload attempt cdIdx e fuel =
      ([.logErrorWith e
          ("Error: cannot connect to Postgres. Details: " ++
            jsStringOf e.message)] ++ rejectTrace a,
        a, .exited 1) := by
  unfold catchHandler catchCore
  cases hm : e.message with
  | none => simp [hm, jsStringOf]
  | some m =>
    rcases h with h | h
    · simp [hm, h m hm, jsStringOf]
    · simp [hm, h, jsStringOf]

/-- Witness for C4: a disabled auto-creation adapter takes the fatal
path even on a missing-database message. -/
theorem c4_witness :
    catchHandler
        ⟨⟨none, none, none, none⟩, fun _ => .ok (), fun _ => true,
          .ok (), .ok (), .ok (), .ok ()⟩
        ⟨none, false, true, none, false, none, false, true, none,
          1, 2, 3, 4, none, none⟩
        false 1 0 ⟨some "database payload does not exist"⟩ 0 =
      ([.logErrorWith ⟨some "database payload does not exist"⟩
          "Error: cannot connect to Postgres. Details: database payload does not exist",
          .rejectInitializingCall],
        ⟨none, false, true, none, false, none, false, true, none,
          1, 2, 3, 4, none, none⟩, .exited 1) := by
  have h := c4_fatal_path
    ⟨⟨none, none, none, none⟩, fun _ => .ok (), fun _ => true,
      .ok (), .ok (), .ok (), .ok ()⟩
    ⟨none, false, true, none, false, none, false, true, none,
      1, 2, 3, 4, none, none⟩
    false 1 0 ⟨some "database payload does not exist"⟩ 0 (Or.inr rfl)
  exact h.trans (by decide)

/-- C6: on a successful top-level connect the post-connect trace is, in
this order: `createExtensions` first; then `pushDevSchema` exactly when
`NODE_ENV` is not `production`, `PAYLOAD_MIGRATING` is not `true`, and
`push` is not explicitly false; then `resolveInitializing` when it is a
function; and last, production migration.  The second conjunct pins
the migration step to `NODE_ENV = production` with configured
migrations and shows the migration collaborator receives exactly those
migrations. -/
theorem c6_post_connect_ordering :
    (∀ (w : World) (a : Adapter) (hotReload : Bool) (attempt cdIdx fuel : Nat)
        (c : Client),
      selectClient a.poolOptions a.forceUseVercelPostgres
          (csResolve a.poolOptions w.env.postgresUrl) = .ok c →
      w.connectOutcomes attempt = .ok () →
      w.dropOutcome = .ok () → w.extensionsOutcome = .ok () →
      w.pushOutcome = .ok () →
      (connect w a hotReload attempt cdIdx (fuel + 1)).1 =
        [Event.clientConnectCall attempt, Event.attachErrorListener] ++
          (if hotReload = false ∧ w.env.payloadDropDatabase = some "true" then
            [Event.logInfo (dropInfoMsg a.schemaName), Event.dropDatabaseCall,
              Event.logInfo "---- DROPPED TABLES ----"]
          else []) ++
          [Event.createExtensionsCall] ++
          (if pushCondition w.env a.push then [Event.pushDevSchemaCall] else []) ++
          resolveTrace a ++ (prodMigrationPart w a).1) ∧
    (∀ (w : World) (a : Adapter) (migs : Nat),
      w.env.nodeEnv = some "production" → a.prodMigrations = some migs →
      w.migrateOutcome = .ok () →
      prodMigrationPart w a = ([Event.migrateCall migs], .completed)) := by
  constructor
  · intro w a hotReload attempt cdIdx fuel c hsel hconn hdrop hext hpush
    conv_lhs => rw [connect]
    cases hpc : pushCondition w.env a.push <;>
      by_cases hdc : hotReload = false ∧ w.env.payloadDropDatabase = some "true" <;>
        simp [hsel, hconn, hdrop, hext, hpush, hdc, hpc, connectWithReconnect,
          postConnect, resolveTrace, prodMigrationPart]
  · intro w a migs h1 h2 h3
    simp [prodMigrationPart, h1, h2, h3]

/-- Witness for C6: a production run with drop enabled shows the full
ordering extensions → resolve → migrate (dev push suppressed in
production), with the configured migrations id 7 passed to migrate. -/
theorem c6_witness :
    (connect
        ⟨⟨none, some "true", some "production", none⟩, fun _ => .ok (),
          fun _ => true, .ok (), .ok (), .ok (), .ok ()⟩
        ⟨none, false, false, none, false, none, true, false, some 7,
          1, 2, 3, 4, none, none⟩
        false 0 0 1).1 =
      [Event.clientConnectCall 0, Event.attachErrorListener,
        Event.logInfo "---- DROPPING TABLES SCHEMA(public) ----",
        Event.dropDatabaseCall, Event.logInfo "---- DROPPED TABLES ----",
        Event.createExtensionsCall, Event.resolveInitializingCall,
        Event.migrateCall 7] := by
  have h := c6_post_connect_ordering.1
    ⟨⟨none, some "true", some "production", none⟩, fun _ => .ok (),
      fun _ => true, .ok (), .ok (), .ok (), .ok ()⟩
    ⟨none, false, false, none, false, none, true, false, some 7,
      1, 2, 3, 4, none, none⟩
    false 0 0 0 (hostedVariant none) rfl rfl rfl rfl rfl
  exact h.trans (by decide)

/-- Helper: `connectWithReconnect` never emits a drop-database event. -/
theorem dropFree_connectWithReconnect (outcomes : Nat → Except JSError Unit) :
    ∀ (fuel attempt : Nat) (reconnect : Bool),
      Event.dropDatabaseCall ∉ (connectWithReconnect outcomes attempt reconnect fuel).1 := by
  intro fuel
  induction fuel with
  | zero => intro attempt reconnect; simp [connectWithReconnect]
  | succ fuel ih =>
    intro attempt reconnect
    rw [connectWithReconnect]
    cases reconnect <;> cases h : outcomes attempt <;>
      simp [h, ih (attempt + 1) true]

/-- Helper: the post-connect section never emits a drop-database
event. -/
theorem dropFree_postConnect (w : World) (a : Adapter) :
    Event.dropDatabaseCall ∉ (postConnect w a).1 := by
  unfold postConnect prodMigrationPart resolveTrace
  cases w.extensionsOutcome <;> cases w.pushOutcome <;>
    cases w.migrateOutcome <;> cases a.prodMigrations <;>
      split_ifs <;> simp

/-- Helper: the catch block only adds a drop-database event if its
recursive re-invocation does. -/
theorem dropFree_catchCore (w : World) (a : Adapter) (cdIdx : Nat)
    (e : JSError) (recurse : Unit → RunResult)
    (hrec : Event.dropDatabaseCall ∉ (recurse ()).1) :
    Event.dropDatabaseCall ∉ (catchCore w a cdIdx e recurse).1 := by
  unfold catchCore rejectTrace
  cases e.message <;> (repeat' split) <;> simp_all

/-- Helper: with `hotReload = true`, or without the
`PAYLOAD_DROP_DATABASE = true` flag, no run of `connect` at any fuel
emits a drop-database event. -/
theorem dropFree_connect (w : World) (hotReload : Bool)
    (hno : hotReload = true ∨ w.env.payloadDropDatabase ≠ some "true") :
    ∀ (fuel : Nat) (a : Adapter) (attempt cdIdx : Nat),
      Event.dropDatabaseCall ∉ (connect w a hotReload attempt cdIdx fuel).1 := by
  have hcond : ∀ hr : Bool, hr = hotReload →
      ¬(hotReload = false ∧ w.env.payloadDropDatabase = some "true") := by
    rintro _ _ ⟨h1, h2⟩
    rcases hno with h | h
    · rw [h] at h1; exact Bool.noConfusion h1
    · exact h h2
  intro fuel
  induction fuel with
  | zero => intro a attempt cdIdx; simp [connect]
  | succ fuel ih =>
    intro a attempt cdIdx
    rw [connect]
    cases hsel : selectClient a.poolOptions a.forceUseVercelPostgres
        (csResolve a.poolOptions w.env.postgresUrl) with
    | error e =>
      simp only [hsel]
      exact dropFree_catchCore _ _ _ _ _ (ih _ _ _)
    | ok c =>
      simp only [hsel]
      cases hc : (connectWithReconnect w.connectOutcomes attempt false (fuel + 1)).2 with
      | error e =>
        simp only [hc, List.mem_append]
        rintro (h | h)
        · exact dropFree_connectWithReconnect w.connectOutcomes (fuel + 1) attempt false h
        · exact dropFree_catchCore _ _ _ _ _ (ih _ _ _) h
      | ok u =>
        simp only [hc, if_neg (hcond hotReload rfl), List.mem_append]
        rintro (h | h)
        · exact dropFree_connectWithReconnect w.connectOutcomes (fuel + 1) attempt false h
        · exact dropFree_postConnect _ _ h

/-- C7: `dropDatabase` is never invoked on a hot-reload connect, for
any environment and any outcome of the run; and once the initial
connect attempt succeeds, `dropDatabase` is invoked exactly when
`hotReload` is false and `PAYLOAD_DROP_DATABASE` is `"true"`. -/
theorem c7_drop_database_gating :
    (∀ (w : World) (a : Adapter) (attempt cdIdx fuel : Nat),
      Event.dropDatabaseCall ∉ (connect w a true attempt cdIdx fuel).1) ∧
    (∀ (w : World) (a : Adapter) (hotReload : Bool) (attempt cdIdx fuel : Nat)
        (c : Client),
      selectClient a.poolOptions a.forceUseVercelPostgres
          (csResolve a.poolOptions w.env.postgresUrl) = .ok c →
      w.connectOutcomes attempt = .ok () →
      (Event.dropDatabaseCall ∈ (connect w a hotReload attempt cdIdx (fuel + 1)).1 ↔
        hotReload = false ∧ w.env.payloadDropDatabase = some "true")) := by
  constructor
  · intro w a attempt cdIdx fuel
    exact dropFree_connect w true (Or.inl rfl) fuel a attempt cdIdx
  · intro w a hotReload attempt cdIdx fuel c hsel hconn
    by_cases hdc : hotReload = false ∧ w.env.payloadDropDatabase = some "true"
    · refine ⟨fun _ => hdc, fun _ => ?_⟩
      rw [connect]
      simp only [hsel, connectWithReconnect, hconn]
      cases w.dropOutcome <;> simp [hdc]
    · have hno : hotReload = true ∨ w.env.payloadDropDatabase ≠ some "true" := by
        cases hotReload with
        | true => exact Or.inl rfl
        | false =>
          right
          intro hflag
          exact hdc ⟨rfl, hflag⟩
      refine ⟨fun hmem => absurd hmem ?_, fun hcontra => absurd hcontra hdc⟩
      exact dropFree_connect w hotReload hno (fuel + 1) a attempt cdIdx

/-- Witness for C7: with `hotReload = false` and the flag set, the run
emits the drop-database event. -/
theorem c7_witness :
    Event.dropDatabaseCall ∈
      (connect
        ⟨⟨none, some "true", none, none⟩, fun _ => .ok (), fun _ => true,
          .ok (), .ok (), .ok (), .ok ()⟩
        ⟨none, false, false, none, false, none, false, false, none,
          1, 2, 3, 4, none, none⟩
        false 0 0 1).1 :=
  (c7_drop_database_gating.2
    ⟨⟨none, some "true", none, none⟩, fun _ => .ok (), fun _ => true,
      .ok (), .ok (), .ok (), .ok ()⟩
    ⟨none, false, false, none, false, none, false, false, none,
      1, 2, 3, 4, none, none⟩
    false 0 0 0 (hostedVariant none) rfl rfl).mpr ⟨rfl, rfl⟩

/-- C9 counterexample: the supervisor also mutates the adapter's
`schema` slot (the merge assigned before the `try`), which is neither
the client-handle slot nor the query-layer slot — here a run leaves
`schema` different from its initial value. -/
theorem c9_counterexample :
    ((connect
        ⟨⟨none, none, none, none⟩, fun _ => .error ⟨some "boom"⟩, fun _ => true,
          .ok (), .ok (), .ok (), .ok ()⟩
        ⟨none, false, false, none, false, none, false, false, none,
          1, 2, 3, 4, none, none⟩
        false 0 0 1).2.1).schema ≠
      ((⟨none, false, false, none, false, none, false, false, none,
          1, 2, 3, 4, none, none⟩ : Adapter)).schema := by decide

/-- Helper: the post-connect section leaves the adapter untouched. -/
theorem frame_postConnect (w : World) (a : Adapter) :
    (postConnect w a).2.1 = a := by
  unfold postConnect prodMigrationPart resolveTrace
  cases w.extensionsOutcome <;> cases w.pushOutcome <;>
    cases w.migrateOutcome <;> cases a.prodMigrations <;>
      split_ifs <;> simp

/-- Helper: the catch block preserves the frame fields whenever its
recursive re-invocation does. -/
theorem frame_catchCore (w : World) (a : Adapter) (cdIdx : Nat) (e : JSError)
    (recurse : Unit → RunResult)
    (hrec : frameFields (recurse ()).2.1 = frameFields a) :
    frameFields (catchCore w a cdIdx e recurse).2.1 = frameFields a := by
  unfold catchCore rejectTrace
  cases e.message <;> (repeat' split) <;> simp_all

/-- C9 amended: the only adapter fields `connect` mutates are the
`schema` slot and the query-layer (`drizzle`) slot; the pool client is
held in a local variable and never stored on the adapter, and every
other adapter field is unchanged by any run at any fuel. -/
theorem c9_amended_frame_preservation :
    ∀ (fuel : Nat) (w : World) (a : Adapter) (hotReload : Bool)
      (attempt cdIdx : Nat),
      frameFields ((connect w a hotReload attempt cdIdx fuel).2.1) =
        frameFields a := by
  intro fuel
  induction fuel with
  | zero => intro w a hotReload attempt cdIdx; simp [connect]
  | succ fuel ih =>
    intro w a hotReload attempt cdIdx
    rw [connect]
    cases hsel : selectClient a.poolOptions a.forceUseVercelPostgres
        (csResolve a.poolOptions w.env.postgresUrl) with
    | error e =>
      simp only [hsel]
      exact frame_catchCore _ _ _ _ _ (ih w _ hotReload attempt (cdIdx + 1))
    | ok c =>
      simp only [hsel]
      cases hc : (connectWithReconnect w.connectOutcomes attempt false (fuel + 1)).2 with
      | error e =>
        simp only [hc]
        exact frame_catchCore _ _ _ _ _ (ih w _ hotReload (attempt + 1) (cdIdx + 1))
      | ok u =>
        simp only [hc]
        split_ifs with hdc
        · cases hdrop : w.dropOutcome with
          | error e =>
            simp only [hdrop]
            exact frame_catchCore _ _ _ _ _ (ih w _ hotReload (attempt + 1) (cdIdx + 1))
          | ok v =>
            simp only [hdrop]
            rw [frame_postConnect]
            rfl
        · rw [frame_postConnect]
          rfl

end VercelPG
